import Mathlib

/-!
Shallow embedding of the MCP CSV/S3 tool server.

The repository is a thin tool layer: `utils/file_reader.py` performs the
reads (pandas for CSV/Parquet, boto3/s3fs for S3), `tools/*.py` wraps each
read in a logging try/except and registers it on the shared `FastMCP`
instance from `server.py`.

Embedding conventions:
* A Python call that may raise is `Except String α`; `.error e` is a raised
  exception carrying message `e` (Python `str(e)`).
* The external libraries (pandas, boto3) are passed in as explicit
  environments: a `PdReader` maps a path string to the parse outcome, and a
  bucket-listing call outcome is an `Except String (List String)` of bucket
  names.  The functions of `file_reader.py` are translated over these
  environments, mirroring the source line by line.
* `pathlib.Path.__truediv__` semantics: joining with an absolute component
  discards the base path; otherwise a `/` separator is inserted.
-/

namespace Mcp

/-- A pandas dataframe as this repository uses it: `len(df)` is the number of
data rows, `len(df.columns)` the number of columns, `df.head()` the first
rows.  Cells are kept as strings; the code never inspects cell values. -/
structure DataFrame where
  cols : List String
  rows : List (List String)
deriving Repr, DecidableEq

/-- `df.head()` with the pandas default `n=5`: the frame restricted to its
first five rows. -/
def DataFrame.head (df : DataFrame) : DataFrame :=
  ⟨df.cols, df.rows.take 5⟩

/-- Modelled abstraction of `str(df)`, pandas text rendering of a frame:
the column names, then each row, one line apiece. -/
def DataFrame.render (df : DataFrame) : String :=
  String.intercalate "\n"
    (String.intercalate " " df.cols :: df.rows.map (fun r => String.intercalate " " r))

/-- Environment for `pandas.read_csv` / `pandas.read_parquet`: the outcome
(parsed frame, or raised exception message) of reading each path. -/
def PdReader := String → Except String DataFrame

/-- Splits a character list at every occurrence of `sep` (the pieces do not
contain `sep`; `n` separators yield `n + 1` pieces). -/
def splitOnChar (sep : Char) : List Char → List (List Char)
  | [] => [[]]
  | c :: rest =>
    match splitOnChar sep rest with
    | [] => [[c]]
    | h :: t => if c = sep then [] :: h :: t else (c :: h) :: t

/-- Whether a POSIX path string is absolute (begins with a slash), as
`pathlib.PurePosixPath.is_absolute`. -/
def pyIsAbsolute (s : String) : Bool :=
  match s.data with
  | c :: _ => c = '/'
  | [] => false

/-- `pathlib.Path.__truediv__` on POSIX: `base / child` is `child` itself
when `child` is absolute (the base is discarded), else `base`, a separator,
and `child`. -/
def pyJoin (base child : String) : String :=
  if pyIsAbsolute child then child else base ++ "/" ++ child

/-- Whether some slash-separated component of the path is `..`. -/
def hasDotDot (s : String) : Bool :=
  (splitOnChar '/' s.data).contains ['.', '.']

/-- Path `p` lies (syntactically) inside directory `dir`: it extends
`dir ++ "/"` and the remainder climbs through no `..` component. -/
def withinDirP (dir p : String) : Prop :=
  ∃ rest, p = dir ++ "/" ++ rest ∧ hasDotDot rest = false

/-- `DATA_DIR = Path(__file__).resolve().parent.parent / "data"`
(file_reader.py line 16): the `data` directory next to the package inside
the resolved installation directory `srcDir`; its concrete value is fixed
at import time and depends only on where the repository is installed. -/
def DATA_DIR (srcDir : String) : String :=
  srcDir ++ "/data"

/-- The summary sentence `f"CSV file '{filename}' has {len(df)} rows and
{len(df.columns)} columns."`, produced verbatim by `read_csv_summary` and
embedded verbatim inside the f-strings of `read_csv_data` and
`read_csv_from_s3`. -/
def csvSummaryLine (filename : String) (df : DataFrame) : String :=
  "CSV file \x27" ++ filename ++ "\x27 has " ++ toString df.rows.length ++
    " rows and " ++ toString df.cols.length ++ " columns."

/-- `read_csv_summary` (file_reader.py lines 19-31): joins `DATA_DIR` with
`filename`, parses with `pd.read_csv` (exceptions propagate), and returns
the summary sentence. -/
def read_csv_summary (readCsv : PdReader) (dataDir filename : String) :
    Except String String :=
  match readCsv (pyJoin dataDir filename) with
  | .error e => .error e
  | .ok df => .ok (csvSummaryLine filename df)

/-- `read_parquet_summary` (file_reader.py lines 34-46): same pattern with
`pd.read_parquet` and the word `Parquet`. -/
def read_parquet_summary (readParquet : PdReader) (dataDir filename : String) :
    Except String String :=
  match readParquet (pyJoin dataDir filename) with
  | .error e => .error e
  | .ok df =>
    .ok ("Parquet file \x27" ++ filename ++ "\x27 has " ++ toString df.rows.length ++
      " rows and " ++ toString df.cols.length ++ " columns.")

/-- `read_csv_data` (file_reader.py lines 49-64): as `read_csv_summary`, but
the returned triple-quoted f-string adds `df.head()` rendered as text,
between the literal indentation of the Python source. -/
def read_csv_data (readCsv : PdReader) (dataDir filename : String) :
    Except String String :=
  match readCsv (pyJoin dataDir filename) with
  | .error e => .error e
  | .ok df =>
    .ok ("\n        " ++ csvSummaryLine filename df ++
      "\n        Data points are: " ++ (DataFrame.head df).render ++ "\n        ")

/-- `read_csv_from_s3` (file_reader.py lines 67-84): reads the S3 path with
`pd.read_csv` inside `try`; on success returns the triple-quoted summary
and preview, on any exception returns
`f"Error reading S3 file: {str(e)}"` instead of raising. -/
def read_csv_from_s3 (readCsv : PdReader) (path : String) :
    Except String String :=
  match readCsv path with
  | .ok df =>
    .ok ("\n        " ++ csvSummaryLine path df ++
      "\n        Data points are: " ++ (DataFrame.head df).render ++ "\n        ")
  | .error e => .ok ("Error reading S3 file: " ++ e)

/-- `list_all_the_buckets` (file_reader.py lines 88-101): calls
`s3.list_buckets()` inside `try`; on success returns
`f"Found {len(buckets)} S3 buckets:\n"` followed by the `"\n"`-joined
`- name` entries, on any exception returns
`f"Error listing S3 buckets: {str(e)}"` instead of raising. -/
def list_all_the_buckets (listBucketsResp : Except String (List String)) :
    Except String String :=
  match listBucketsResp with
  | .ok buckets =>
    .ok ("Found " ++ toString buckets.length ++ " S3 buckets:\n" ++
      String.intercalate "\n" (buckets.map (fun b => "- " ++ b)))
  | .error e => .ok ("Error listing S3 buckets: " ++ e)

/-- Tool `summarize_csv_file` (csv_tools.py lines 8-24): logging try/except
around `read_csv_summary`; the except branch re-raises the exception. -/
def summarize_csv_file (readCsv : PdReader) (dataDir filename : String) :
    Except String String :=
  match read_csv_summary readCsv dataDir filename with
  | .ok result => .ok result
  | .error e => .error e

/-- Tool `read_csv_file_data` (csv_tools.py lines 26-42): logging try/except
around `read_csv_data`; the except branch re-raises. -/
def read_csv_file_data (readCsv : PdReader) (dataDir filename : String) :
    Except String String :=
  match read_csv_data readCsv dataDir filename with
  | .ok result => .ok result
  | .error e => .error e

/-- Tool `summarize_parquet_file` (parquet_tools.py lines 8-24): logging
try/except around `read_parquet_summary`; the except branch re-raises. -/
def summarize_parquet_file (readParquet : PdReader) (dataDir filename : String) :
    Except String String :=
  match read_parquet_summary readParquet dataDir filename with
  | .ok result => .ok result
  | .error e => .error e

/-- Tool `read_csv_file_data_s3` (s3_tools.py lines 8-24): logging
try/except around `read_csv_from_s3`; the except branch re-raises. -/
def read_csv_file_data_s3 (readCsv : PdReader) (filepath : String) :
    Except String String :=
  match read_csv_from_s3 readCsv filepath with
  | .ok result => .ok result
  | .error e => .error e

/-- Tool `list_buckets` (s3_tools.py lines 26-40): logging try/except around
`list_all_the_buckets`; the except branch re-raises. -/
def list_buckets (listBucketsResp : Except String (List String)) :
    Except String String :=
  match list_all_the_buckets listBucketsResp with
  | .ok result => .ok result
  | .error e => .error e

/-- A tool descriptor as advertised by the registry: name, description
(the docstring of the decorated function), and its required argument
names (parameters without defaults). -/
structure ToolDescriptor where
  name : String
  description : String
  requiredArgs : List String
deriving Repr, DecidableEq

/-- Descriptor registered by `@mcp.tool()` on `summarize_csv_file`
(description abridged to the first docstring line). -/
def summarize_csv_file_desc : ToolDescriptor :=
  ⟨"summarize_csv_file",
   "Summarize a CSV file by reporting its number of rows and columns.",
   ["filename"]⟩

/-- Descriptor registered by `@mcp.tool()` on `read_csv_file_data`. -/
def read_csv_file_data_desc : ToolDescriptor :=
  ⟨"read_csv_file_data", "Read data from CSV file.", ["filename"]⟩

/-- Descriptor registered by `@mcp.tool()` on `summarize_parquet_file`. -/
def summarize_parquet_file_desc : ToolDescriptor :=
  ⟨"summarize_parquet_file",
   "Summarize a Parquet file by reporting its number of rows and columns.",
   ["filename"]⟩

/-- Descriptor registered by `@mcp.tool()` on `read_csv_file_data_s3`. -/
def read_csv_file_data_s3_desc : ToolDescriptor :=
  ⟨"read_csv_file_data_s3", "Read CSV data directly from S3.", ["filepath"]⟩

/-- Descriptor registered by `@mcp.tool()` on `list_buckets`. -/
def list_buckets_desc : ToolDescriptor :=
  ⟨"list_buckets", "List all the buckets in the AWS S3.", []⟩

/-- The tool registry after `import tools`: `tools/__init__.py` imports
`csv_tools`, then `parquet_tools`, then `s3_tools`, and each `@mcp.tool()`
decorator registers its function on the shared `FastMCP` instance in that
order. -/
def tools_registry : List ToolDescriptor :=
  [summarize_csv_file_desc, read_csv_file_data_desc, summarize_parquet_file_desc,
   read_csv_file_data_s3_desc, list_buckets_desc]

/-- Outcome of a dispatched tool call: a success payload or a failure
description. -/
inductive InvocationResult where
  | success (payload : String)
  | failure (error : String)
deriving Repr, DecidableEq

/-- A registered tool: its descriptor paired with its handler, which takes
the argument mapping of an invocation request. -/
structure RegisteredTool where
  descriptor : ToolDescriptor
  handler : List (String × String) → Except String String

/-- Argument marshalling: look up a required parameter in the argument
mapping; a missing required argument is a raised error. -/
def getArg (args : List (String × String)) (param : String) :
    Except String String :=
  match args.lookup param with
  | some v => .ok v
  | none => .error ("missing required argument: " ++ param)

/-- The registered tools with their handlers, in registration order, over
the given environments (`readCsv`, `readParquet`, `s3Reader` for the three
pandas entry points, `dataDir` for `DATA_DIR`, `bucketsResp` for the
`list_buckets` client call). -/
def registeredTools (readCsv readParquet s3Reader : PdReader) (dataDir : String)
    (bucketsResp : Except String (List String)) : List RegisteredTool :=
  [⟨summarize_csv_file_desc, fun args =>
      match getArg args "filename" with
      | .ok v => summarize_csv_file readCsv dataDir v
      | .error e => .error e⟩,
   ⟨read_csv_file_data_desc, fun args =>
      match getArg args "filename" with
      | .ok v => read_csv_file_data readCsv dataDir v
      | .error e => .error e⟩,
   ⟨summarize_parquet_file_desc, fun args =>
      match getArg args "filename" with
      | .ok v => summarize_parquet_file readParquet dataDir v
      | .error e => .error e⟩,
   ⟨read_csv_file_data_s3_desc, fun args =>
      match getArg args "filepath" with
      | .ok v => read_csv_file_data_s3 s3Reader v
      | .error e => .error e⟩,
   ⟨list_buckets_desc, fun _ => list_buckets bucketsResp⟩]

/-- Modelled from the spec: the Dispatcher lives in the external protocol
runtime (`mcp.server.fastmcp`), not in this repository; §4.1 gives
`resolve(name)` returning the handler or signalling "not found". -/
def resolve (reg : List RegisteredTool) (name : String) :
    Option RegisteredTool :=
  reg.find? (fun t => t.descriptor.name == name)

/-- Modelled from the spec: Dispatcher contract of §4.2 — `invoke(name,
arguments)` looks the handler up via the registry, returns a "tool not
found" failure when absent, and otherwise surfaces any exception the
handler raises as a failure result carrying the exception message. -/
def invoke (reg : List RegisteredTool) (name : String)
    (args : List (String × String)) : InvocationResult :=
  match resolve reg name with
  | none => .failure ("tool not found: " ++ name)
  | some t =>
    match t.handler args with
    | .ok s => .success s
    | .error e => .failure e

/-- C1: for every path, when `pd.read_csv` raises with any message `e`,
`read_csv_from_s3` does not propagate the exception but returns (as a
normal value) the string "Error reading S3 file: " followed by `e`. -/
theorem c1_read_csv_from_s3_catches_all (readCsv : PdReader) (path e : String)
    (h : readCsv path = .error e) :
    read_csv_from_s3 readCsv path = .ok ("Error reading S3 file: " ++ e) := by
  simp [read_csv_from_s3, h]

/-- C1 witness: on a mocked reader raising an access-denied error,
`read_csv_from_s3` returns the error string rather than raising. -/
theorem c1_read_csv_from_s3_catches_all_witness :
    read_csv_from_s3
        (fun _ => Except.error "An error occurred (AccessDenied) when calling the GetObject operation: Access Denied")
        "s3://bucket/key.csv" =
      Except.ok ("Error reading S3 file: " ++
        "An error occurred (AccessDenied) when calling the GetObject operation: Access Denied") :=
  c1_read_csv_from_s3_catches_all _ _ _ rfl

/-- C2: for a filename whose file is absent from the data directory (so
`pd.read_csv` raises), `summarize_csv_file` propagates the exception to its
caller and returns no string. -/
theorem c2_summarize_missing_file_raises (readCsv : PdReader)
    (dataDir filename e : String)
    (h : readCsv (pyJoin dataDir filename) = .error e) :
    summarize_csv_file readCsv dataDir filename = .error e ∧
      ∀ s, summarize_csv_file readCsv dataDir filename ≠ .ok s := by
  refine ⟨?_, ?_⟩ <;> simp [summarize_csv_file, read_csv_summary, h]

/-- C2 witness: with a reader raising a file-not-found error on every path,
`summarize_csv_file` raises that error for `missing.csv`. -/
theorem c2_summarize_missing_file_raises_witness :
    summarize_csv_file (fun _ => Except.error "FileNotFoundError: No such file or directory")
        "/app/src/data" "missing.csv" =
        Except.error "FileNotFoundError: No such file or directory" ∧
      ∀ s, summarize_csv_file (fun _ => Except.error "FileNotFoundError: No such file or directory")
        "/app/src/data" "missing.csv" ≠ Except.ok s :=
  c2_summarize_missing_file_raises _ "/app/src/data" "missing.csv" _ rfl

/-- C3: for a well-formed CSV that parses to a frame with `N` data rows and
`M` columns, `read_csv_summary` returns exactly the sentence reporting row
count `N` and column count `M`. -/
theorem c3_summary_reports_exact_counts (readCsv : PdReader)
    (dataDir filename : String) (df : DataFrame)
    (h : readCsv (pyJoin dataDir filename) = .ok df) :
    read_csv_summary readCsv dataDir filename =
      .ok ("CSV file \x27" ++ filename ++ "\x27 has " ++ toString df.rows.length ++
        " rows and " ++ toString df.cols.length ++ " columns.") := by
  simp [read_csv_summary, csvSummaryLine, h]

/-- C3 witness: a 3-row, 2-column frame is reported as "3 rows and 2
columns". -/
theorem c3_summary_reports_exact_counts_witness :
    read_csv_summary
        (fun _ => Except.ok ⟨["a", "b"], [["1", "2"], ["3", "4"], ["5", "6"]]⟩)
        "/app/src/data" "sample.csv" =
      Except.ok "CSV file \x27sample.csv\x27 has 3 rows and 2 columns." :=
  (c3_summary_reports_exact_counts
    (fun _ => Except.ok ⟨["a", "b"], [["1", "2"], ["3", "4"], ["5", "6"]]⟩)
    "/app/src/data" "sample.csv" _ rfl).trans (congrArg Except.ok (by decide))

/-- C5: on a client response of zero buckets, `list_all_the_buckets`
returns exactly the header "Found 0 S3 buckets:" and its newline, with
nothing after it: no line of the output is a "- name" bucket entry. -/
theorem c5_zero_buckets_no_entries :
    list_all_the_buckets (Except.ok []) = Except.ok "Found 0 S3 buckets:\n" ∧
    "Found 0 S3 buckets:\n" = "Found 0 S3 buckets:" ++ "\n" ++ "" ∧
    (splitOnChar '\n' ("Found 0 S3 buckets:\n").data).all
      (fun line => line.take 2 != ['-', ' ']) = true := by
  refine ⟨?_, by decide, by decide⟩
  simp [list_all_the_buckets, String.intercalate]
  decide

/-- C9: the tool wrappers `read_csv_file_data_s3` and `list_buckets` are
transparent over their underlying functions and always return a string,
never raising: their except/re-raise branches are unreachable because
`read_csv_from_s3` and `list_all_the_buckets` catch every exception and
return an error string instead. -/
theorem c9_s3_wrappers_never_raise (readCsv : PdReader) (filepath : String)
    (bucketsResp : Except String (List String)) :
    read_csv_file_data_s3 readCsv filepath = read_csv_from_s3 readCsv filepath ∧
    (∃ s, read_csv_file_data_s3 readCsv filepath = .ok s) ∧
    list_buckets bucketsResp = list_all_the_buckets bucketsResp ∧
    (∃ t, list_buckets bucketsResp = .ok t) := by
  refine ⟨?_, ?_, ?_, ?_⟩
  · cases hr : readCsv filepath <;>
      simp [read_csv_file_data_s3, read_csv_from_s3, hr]
  · cases hr : readCsv filepath <;>
      simp [read_csv_file_data_s3, read_csv_from_s3, hr]
  · cases bucketsResp <;> simp [list_buckets, list_all_the_buckets]
  · cases bucketsResp <;> simp [list_buckets, list_all_the_buckets]

/-- C4 counterexample: with the repository installed at `/app/src` (the
failure is uniform in the installation directory), the filename
`"/etc/passwd"` makes `read_csv_summary` read `/etc/passwd`: pathlib join
discards `DATA_DIR` when the joined component is absolute, so the path read
is not inside the data directory, and the read succeeds on a file outside
it. -/
theorem c4_read_escapes_data_dir_counterexample :
    pyJoin (DATA_DIR "/app/src") "/etc/passwd" = "/etc/passwd" ∧
    ¬ withinDirP (DATA_DIR "/app/src") (pyJoin (DATA_DIR "/app/src") "/etc/passwd") ∧
    read_csv_summary
        (fun p => if p = "/etc/passwd" then
            Except.ok ⟨["root:x:0:0"], [["daemon:x:1:1"]]⟩
          else Except.error "FileNotFoundError: No such file or directory")
        (DATA_DIR "/app/src") "/etc/passwd" =
      Except.ok ("CSV file \x27" ++ "/etc/passwd" ++ "\x27 has " ++ toString (1:Nat) ++
        " rows and " ++ toString (1:Nat) ++ " columns.") := by
  refine ⟨by decide, ?_, ?_⟩
  · rintro ⟨rest, heq, -⟩
    have h0 : pyJoin (DATA_DIR "/app/src") "/etc/passwd" = "/etc/passwd" := by decide
    have h1 : DATA_DIR "/app/src" = "/app/src/data" := by decide
    rw [h0, h1] at heq
    have hlen := congrArg String.length heq
    rw [String.length_append, String.length_append] at hlen
    have e1 : ("/etc/passwd" : String).length = 11 := rfl
    have e2 : ("/app/src/data" : String).length = 13 := rfl
    have e3 : ("/" : String).length = 1 := rfl
    rw [e1, e2, e3] at hlen
    omega
  · have h0 : pyJoin (DATA_DIR "/app/src") "/etc/passwd" = "/etc/passwd" := by decide
    simp only [read_csv_summary, h0, csvSummaryLine]
    simp

/-- C4 amended: each of `read_csv_summary`, `read_csv_data` and
`read_parquet_summary` reads only the single path obtained by pathlib-
joining `DATA_DIR` with the filename (the result depends on the reader
environment only at that path); when the filename is relative and has no
`..` component, that path lies inside `DATA_DIR` — but an absolute filename
replaces `DATA_DIR` entirely, so such a filename reads outside the
directory. -/
theorem c4_relative_filename_stays_in_data_dir (readA readB : PdReader)
    (srcDir filename : String)
    (habs : pyIsAbsolute filename = false) (hdd : hasDotDot filename = false) :
    withinDirP (DATA_DIR srcDir) (pyJoin (DATA_DIR srcDir) filename) ∧
    (readA (pyJoin (DATA_DIR srcDir) filename) = readB (pyJoin (DATA_DIR srcDir) filename) →
      read_csv_summary readA (DATA_DIR srcDir) filename =
          read_csv_summary readB (DATA_DIR srcDir) filename ∧
        read_csv_data readA (DATA_DIR srcDir) filename =
          read_csv_data readB (DATA_DIR srcDir) filename ∧
        read_parquet_summary readA (DATA_DIR srcDir) filename =
          read_parquet_summary readB (DATA_DIR srcDir) filename) := by
  constructor
  · exact ⟨filename, by simp [pyJoin, habs], hdd⟩
  · intro hag
    refine ⟨?_, ?_, ?_⟩ <;>
      simp [read_csv_summary, read_csv_data, read_parquet_summary, hag]

/-- C4 amended witness: `sample.csv` is relative and `..`-free, so the path
read lies inside the data directory, and the result is determined by the
reader's value at that single path. -/
theorem c4_relative_filename_stays_in_data_dir_witness :
    withinDirP (DATA_DIR "/app/src") (pyJoin (DATA_DIR "/app/src") "sample.csv") ∧
    read_csv_summary (fun _ => Except.error "boom") (DATA_DIR "/app/src") "sample.csv" =
      read_csv_summary (fun _ => Except.error "boom") (DATA_DIR "/app/src") "sample.csv" := by
  have h := c4_relative_filename_stays_in_data_dir
    (fun _ => Except.error "boom") (fun _ => Except.error "boom")
    "/app/src" "sample.csv" (by decide) (by decide)
  exact ⟨h.1, (h.2 rfl).1⟩

/-- C6: for a readable CSV, `read_csv_data` returns a string that contains
the sentence returned by `read_csv_summary` as a segment, plus a preview:
the text rendering of `df.head()`, the frame cut to its first five rows
over the same columns. -/
theorem c6_data_contains_summary_and_preview (readCsv : PdReader)
    (dataDir filename : String) (df : DataFrame)
    (h : readCsv (pyJoin dataDir filename) = .ok df) :
    ∃ out, read_csv_data readCsv dataDir filename = .ok out ∧
      (∃ s pre post, read_csv_summary readCsv dataDir filename = .ok s ∧
        out = pre ++ s ++ post) ∧
      (∃ pre, out = pre ++ (DataFrame.head df).render ++ "\n        ") ∧
      (DataFrame.head df).rows = df.rows.take 5 ∧
      (DataFrame.head df).cols = df.cols := by
  refine ⟨"\n        " ++ csvSummaryLine filename df ++
      "\n        Data points are: " ++ (DataFrame.head df).render ++ "\n        ",
    by simp [read_csv_data, h], ?_, ?_, rfl, rfl⟩
  · exact ⟨csvSummaryLine filename df, "\n        ",
      "\n        Data points are: " ++ (DataFrame.head df).render ++ "\n        ",
      by simp [read_csv_summary, h], by simp [String.append_assoc]⟩
  · exact ⟨"\n        " ++ csvSummaryLine filename df ++ "\n        Data points are: ",
      by simp [String.append_assoc]⟩

/-- C6 witness: instantiation on a concrete 2-row, 1-column frame. -/
theorem c6_data_contains_summary_and_preview_witness :
    ∃ out, read_csv_data (fun _ => Except.ok ⟨["a"], [["1"], ["2"]]⟩)
        "/app/src/data" "sample.csv" = .ok out ∧
      (∃ s pre post, read_csv_summary (fun _ => Except.ok ⟨["a"], [["1"], ["2"]]⟩)
          "/app/src/data" "sample.csv" = .ok s ∧ out = pre ++ s ++ post) ∧
      (∃ pre, out = pre ++
        (DataFrame.head ⟨["a"], [["1"], ["2"]]⟩).render ++ "\n        ") ∧
      (DataFrame.head ⟨["a"], [["1"], ["2"]]⟩).rows =
        (⟨["a"], [["1"], ["2"]]⟩ : DataFrame).rows.take 5 ∧
      (DataFrame.head ⟨["a"], [["1"], ["2"]]⟩).cols =
        (⟨["a"], [["1"], ["2"]]⟩ : DataFrame).cols :=
  c6_data_contains_summary_and_preview
    (fun _ => Except.ok ⟨["a"], [["1"], ["2"]]⟩) "/app/src/data" "sample.csv" _ rfl

/-- C7: after importing the tools package, the registry holds exactly five
tools, named (in registration order) summarize_csv_file,
read_csv_file_data, summarize_parquet_file, read_csv_file_data_s3 and
list_buckets, with required arguments filename, filename, filename,
filepath and none, and every entry has a non-empty name and a non-empty
description. -/
theorem c7_registry_exactly_five_tools :
    tools_registry.length = 5 ∧
    tools_registry.map ToolDescriptor.name =
      ["summarize_csv_file", "read_csv_file_data", "summarize_parquet_file",
       "read_csv_file_data_s3", "list_buckets"] ∧
    tools_registry.map ToolDescriptor.requiredArgs =
      [["filename"], ["filename"], ["filename"], ["filepath"], []] ∧
    tools_registry.all
      (fun t => t.name != "" && t.description != "") = true := by
  decide

/-- C8: invoking the dispatcher with any tool name absent from the registry
returns a "tool not found" failure result; being a total function into
`InvocationResult`, it raises nothing to the caller. -/
theorem c8_unknown_tool_returns_failure (readCsv readParquet s3Reader : PdReader)
    (dataDir : String) (bucketsResp : Except String (List String))
    (name : String) (args : List (String × String))
    (h : name ∉ (registeredTools readCsv readParquet s3Reader dataDir bucketsResp).map
      (fun t => t.descriptor.name)) :
    invoke (registeredTools readCsv readParquet s3Reader dataDir bucketsResp) name args =
      .failure ("tool not found: " ++ name) := by
  have hres : resolve (registeredTools readCsv readParquet s3Reader dataDir bucketsResp)
      name = none := by
    refine List.find?_eq_none.mpr ?_
    intro t ht hbeq
    exact h (List.mem_map.mpr ⟨t, ht, eq_of_beq hbeq⟩)
  simp [invoke, hres]

/-- C8 witness: `invoke("nonexistent_tool", {})` over the registered tools
returns the tool-not-found failure. -/
theorem c8_unknown_tool_returns_failure_witness :
    invoke (registeredTools (fun _ => Except.error "") (fun _ => Except.error "")
        (fun _ => Except.error "") "/app/src/data" (Except.ok []))
      "nonexistent_tool" [] =
      .failure ("tool not found: " ++ "nonexistent_tool") :=
  c8_unknown_tool_returns_failure _ _ _ _ _ _ _ (by decide)

/-- C10: for the same filename (and the same parse outcome `df`), the row
and column counts embedded in the `read_csv_summary` output and in the
`read_csv_data` output are the same numbers `N = len(df)` and
`M = len(df.columns)`: both strings carry the identical
"has N rows and M columns." segment. -/
theorem c10_summary_and_data_counts_agree (readCsv : PdReader)
    (dataDir filename : String) (df : DataFrame)
    (h : readCsv (pyJoin dataDir filename) = .ok df) :
    ∃ N M, N = df.rows.length ∧ M = df.cols.length ∧
      ∃ pre1 pre2 post2,
        read_csv_summary readCsv dataDir filename =
          .ok (pre1 ++ ("\x27 has " ++ toString N ++ " rows and " ++
            toString M ++ " columns.")) ∧
        read_csv_data readCsv dataDir filename =
          .ok (pre2 ++ ("\x27 has " ++ toString N ++ " rows and " ++
            toString M ++ " columns.") ++ post2) := by
  refine ⟨df.rows.length, df.cols.length, rfl, rfl,
    "CSV file \x27" ++ filename,
    "\n        " ++ ("CSV file \x27" ++ filename),
    "\n        Data points are: " ++ (DataFrame.head df).render ++ "\n        ",
    ?_, ?_⟩
  · simp [read_csv_summary, csvSummaryLine, h, String.append_assoc]
  · simp only [read_csv_data, csvSummaryLine, h, String.append_assoc]

/-- C10 witness: instantiation on a concrete 1-row, 2-column frame. -/
theorem c10_summary_and_data_counts_agree_witness :
    ∃ N M, N = (⟨["a", "b"], [["1", "2"]]⟩ : DataFrame).rows.length ∧
      M = (⟨["a", "b"], [["1", "2"]]⟩ : DataFrame).cols.length ∧
      ∃ pre1 pre2 post2,
        read_csv_summary (fun _ => Except.ok ⟨["a", "b"], [["1", "2"]]⟩)
            "/app/src/data" "t.csv" =
          .ok (pre1 ++ ("\x27 has " ++ toString N ++ " rows and " ++
            toString M ++ " columns.")) ∧
        read_csv_data (fun _ => Except.ok ⟨["a", "b"], [["1", "2"]]⟩)
            "/app/src/data" "t.csv" =
          .ok (pre2 ++ ("\x27 has " ++ toString N ++ " rows and " ++
            toString M ++ " columns.") ++ post2) :=
  c10_summary_and_data_counts_agree
    (fun _ => Except.ok ⟨["a", "b"], [["1", "2"]]⟩) "/app/src/data" "t.csv" _ rfl

end Mcp
